import Mathlib

/-!
Verification of the session conflict-detection core of the Faculty-Tracker
repository. The definitions below are a shallow embedding of the Python
source: `Session.is_conflicting` (faculty/models.py), `SessionForm.clean`
(faculty/forms.py), the AJAX view `check_session_conflicts`
(faculty/views.py), and the conflict filter of the bulk seeding commands
(faculty/management/commands/create_dummy_data.py and
create_teacher_sessions.py). Times of day are minutes since midnight
(`Nat`); dates are abstract day ordinals (`Nat`); the session table is a
`List Session`.
-/

/-- Embedding of the `Session` model (faculty/models.py): primary key,
teacher foreign key, calendar date, redundant day-of-week string, start and
end times of day, status string and subject name. Fields not touched by the
conflict logic are omitted. -/
structure Session where
  pk : Nat
  teacher : Nat
  date : Nat
  day_of_week : String
  start_time : Nat
  end_time : Nat
  status : String
  subject : String
deriving DecidableEq

/-- Day-of-week name of an abstract date ordinal, with ordinal 0 a Monday.
Mirrors the `days_map` of the seeding commands, which map
monday..sunday to Python weekday numbers 0..6. -/
def weekdayName (d : Nat) : String :=
  match d % 7 with
  | 0 => "monday"
  | 1 => "tuesday"
  | 2 => "wednesday"
  | 3 => "thursday"
  | 4 => "friday"
  | 5 => "saturday"
  | _ => "sunday"

/-- Rendering of a time-of-day value as Python renders a `datetime.time`
(`HH:MM:SS`), used when the source interpolates a time into a message. -/
def timeStr (m : Nat) : String :=
  (if m / 60 < 10 then "0" else "") ++ toString (m / 60) ++ ":"
    ++ (if m % 60 < 10 then "0" else "") ++ toString (m % 60) ++ ":00"

/-- Embedding of the conflict scan of `SessionForm.clean`
(faculty/forms.py lines 232-244): filter the session table by teacher,
date, status `scheduled`, excluding the primary key of the instance being
edited (`none` when creating, since no stored row has a null pk), then
return the first session whose half-open interval overlaps the proposed
`[st, et)` interval, i.e. `start_time < session.end_time and
end_time > session.start_time`. -/
def formFindConflict (t d st et : Nat) (ex : Option Nat) (store : List Session) :
    Option Session :=
  (store.filter fun s =>
      decide (s.teacher = t) && decide (s.date = d) &&
      decide (s.status = "scheduled") && decide (ex ≠ some s.pk)).find?
    fun s => decide (st < s.end_time) && decide (et > s.start_time)

/-- The `ValidationError` message raised by `SessionForm.clean` on a
conflict: it interpolates the teacher's full name and the conflicting
session's start time, end time and date, and nothing else. -/
def formConflictMessage (teacherName : String) (s : Session) : String :=
  "Teacher " ++ teacherName ++ " already has a class scheduled from "
    ++ timeStr s.start_time ++ " to " ++ timeStr s.end_time
    ++ " on " ++ toString s.date ++ "."

namespace SessionForm

/-- Embedding of `SessionForm.clean` (faculty/forms.py lines 216-246):
first reject an interval with `start_time >= end_time`, then raise a
`ValidationError` naming the first conflicting session, if any. `some msg`
models a raised `ValidationError`, `none` a clean pass. -/
def clean (teacherName : String) (t d st et : Nat) (ex : Option Nat)
    (store : List Session) : Option String :=
  if et ≤ st then some "End time must be after start time."
  else
    match formFindConflict t d st et ex store with
    | some s => some (formConflictMessage teacherName s)
    | none => none

/-- Form submission: a `ModelForm` persists the new record only when
`clean` raises no `ValidationError`. Returns the new session table and the
error message, if any. -/
def submit (teacherName : String) (c : Session) (ex : Option Nat)
    (store : List Session) : List Session × Option String :=
  match clean teacherName c.teacher c.date c.start_time c.end_time ex store with
  | some m => (store, some m)
  | none => (store ++ [c], none)

end SessionForm

/-- Embedding of the `Session.is_conflicting` property
(faculty/models.py lines 247-260): filter the table by the session's own
teacher, date and status `scheduled`, excluding its own pk, and return
`true` on the first stored session whose half-open interval overlaps the
session's own. -/
def Session.is_conflicting (self : Session) (store : List Session) : Bool :=
  (store.filter fun s =>
      decide (s.teacher = self.teacher) && decide (s.date = self.date) &&
      decide (s.status = "scheduled") && decide (s.pk ≠ self.pk)).any
    fun s =>
      decide (self.start_time < s.end_time) &&
      decide (self.end_time > s.start_time)

/-- Digit-list to number conversion, most significant digit first. -/
def digitsToNat (cs : List Char) : Nat :=
  cs.foldl (fun n c => n * 10 + (c.toNat - 48)) 0

/-- Digits-only string to number conversion; `none` when the string is
empty or holds a non-digit, modelling the `ValueError` Python raises when
coercing such a string to an integer id. -/
def strToNatOpt (s : String) : Option Nat :=
  if !s.data.isEmpty && s.data.all Char.isDigit then some (digitsToNat s.data)
  else none

/-- Split a character list on a separator character, keeping empty
groups, as Python `str.split` does. -/
def splitChars (sep : Char) : List Char → List (List Char)
  | [] => [[]]
  | c :: cs =>
    if c = sep then [] :: splitChars sep cs
    else
      match splitChars sep cs with
      | [] => [[c]]
      | g :: gs => (c :: g) :: gs

/-- Digit-group check used by `parseTime`: non-empty, at most two
characters, all digits. -/
def timeField (cs : List Char) : Bool :=
  !cs.isEmpty && cs.length ≤ 2 && cs.all Char.isDigit

/-- Embedding of `datetime.strptime(value, "%H:%M").time()`: accepts
`H:MM`/`HH:MM` with hour below 24 and minute below 60, returning minutes
since midnight; `none` models the `ValueError` raised on malformed input. -/
def parseTime (s : String) : Option Nat :=
  match splitChars ':' s.data with
  | [h, m] =>
    if timeField h && timeField m && digitsToNat h < 24 && digitsToNat m < 60
    then some (digitsToNat h * 60 + digitsToNat m)
    else none
  | _ => none

/-- An incoming HTTP request to the AJAX endpoint: the method and the five
query-string parameters, each `none` when absent, as `request.GET.get`
returns `None` for a missing key. -/
structure ConflictRequest where
  method : String
  teacher_id : Option String
  day_of_week : Option String
  start_time : Option String
  end_time : Option String
  exclude_id : Option String
deriving DecidableEq

/-- The structured JSON body the endpoint always returns:
`has_conflict` plus a message. -/
structure ConflictResponse where
  has_conflict : Bool
  message : String
deriving DecidableEq

/-- Python truthiness of an optional query parameter, as used by
`all([teacher_id, day_of_week, start_time, end_time])`: absent and empty
strings are falsy. -/
def paramPresent : Option String → Bool
  | none => false
  | some s => !s.data.isEmpty

/-- Handling of the optional `exclude_id` parameter in the AJAX view:
absent or empty means no exclusion; a non-empty value is coerced to a pk,
and a non-numeric value raises (modelled as `none`). -/
def parseExclude : Option String → Option (Option Nat)
  | none => some none
  | some e => if e.data.isEmpty then some none else (strToNatOpt e).map some

/-- The AJAX conflict message interpolates the conflicting session's
subject name and its time range. -/
def ajaxConflictMessage (s : Session) : String :=
  "Conflict with " ++ s.subject ++ " (" ++ timeStr s.start_time ++ " - "
    ++ timeStr s.end_time ++ ")"

/-- Embedding of the conflict query of the AJAX view
(faculty/views.py lines 626-644): filter by teacher id, **day_of_week**
(not date), status `scheduled`, optional pk exclusion, then return the
first session overlapping the proposed half-open interval. -/
def ajaxFindConflict (tid : Nat) (day : String) (st et : Nat)
    (ex : Option Nat) (store : List Session) : Option Session :=
  (store.filter fun s =>
      decide (s.teacher = tid) && decide (s.day_of_week = day) &&
      decide (s.status = "scheduled") && decide (ex ≠ some s.pk)).find?
    fun s => decide (st < s.end_time) && decide (et > s.start_time)

/-- The body of the `try` block of `check_session_conflicts`: parse the
two time strings, coerce the teacher and exclude ids, run the conflict
query; `Except.error` models a raised exception caught by the view. -/
def checkInner (req : ConflictRequest) (store : List Session) :
    Except String ConflictResponse :=
  match parseTime (req.start_time.getD ""), parseTime (req.end_time.getD ""),
      strToNatOpt (req.teacher_id.getD ""), parseExclude req.exclude_id with
  | some st, some et, some tid, some ex =>
    match ajaxFindConflict tid (req.day_of_week.getD "") st et ex store with
    | some s => .ok ⟨true, ajaxConflictMessage s⟩
    | none => .ok ⟨false, "No conflicts found"⟩
  | _, _, _, _ => .error "invalid input"

/-- Embedding of the AJAX view `check_session_conflicts`
(faculty/views.py lines 612-651): non-GET requests and requests with a
missing or empty required parameter get a no-conflict response; any
exception inside the `try` block is caught and also degrades to a
no-conflict response carrying the error text. -/
def check_session_conflicts (req : ConflictRequest) (store : List Session) :
    ConflictResponse :=
  if req.method = "GET" then
    if !(paramPresent req.teacher_id && paramPresent req.day_of_week &&
         paramPresent req.start_time && paramPresent req.end_time) then
      ⟨false, "Incomplete data"⟩
    else
      match checkInner req store with
      | .ok r => r
      | .error e => ⟨false, e⟩
  else ⟨false, "Invalid request"⟩

/-- Embedding of the database-layer conflict filter of the bulk seeding
commands (create_dummy_data.py lines 516-527, create_teacher_sessions.py
lines 368-379): `Session.objects.filter(teacher, date,
status='scheduled').filter(start_time__lt=end_time,
end_time__gt=start_time).exists()`. -/
def seedConflictExists (t d st et : Nat) (store : List Session) : Bool :=
  !((store.filter fun s =>
        decide (s.teacher = t) && decide (s.date = d) &&
        decide (s.status = "scheduled")).filter
      fun s => decide (s.start_time < et) && decide (s.end_time > st)).isEmpty

/-- One iteration of the seeding loops: run the conflict check on the
candidate; on conflict `continue` (no insertion, no error), otherwise
save the candidate. -/
def seedStep (store : List Session) (c : Session) : List Session :=
  if seedConflictExists c.teacher c.date c.start_time c.end_time store then
    store
  else store ++ [c]

/-- The seeding loop over the stream of randomly drawn candidates: each
iteration draws the next candidate and applies `seedStep`. -/
def seedLoop (store : List Session) (cands : List Session) : List Session :=
  cands.foldl seedStep store

/-- State-threaded run of `Session.is_conflicting`: the session table is
passed in and handed back, since the property only reads. -/
def isConflictingRun (self : Session) (store : List Session) :
    Bool × List Session :=
  (Session.is_conflicting self store, store)

/-- State-threaded run of `SessionForm.clean`. -/
def formCleanRun (teacherName : String) (t d st et : Nat) (ex : Option Nat)
    (store : List Session) : Option String × List Session :=
  (SessionForm.clean teacherName t d st et ex store, store)

/-- State-threaded run of the AJAX view. -/
def checkConflictsRun (req : ConflictRequest) (store : List Session) :
    ConflictResponse × List Session :=
  (check_session_conflicts req store, store)

/-- Sample stored session: teacher 1, Monday date 0, 09:00-10:00,
scheduled, subject Mathematics. -/
def sessA : Session :=
  ⟨1, 1, 0, "monday", 540, 600, "scheduled", "Mathematics"⟩

/-- Same as `sessA` but with subject Physics. -/
def sessB : Session :=
  ⟨1, 1, 0, "monday", 540, 600, "scheduled", "Physics"⟩

/-- Sample stored session on date 7, which is also a Monday. -/
def sessNextWeek : Session :=
  ⟨2, 1, 7, "monday", 540, 600, "scheduled", "Mathematics"⟩

/-- Sample stored session right after `sessA`: 10:00-11:00 on the same
Monday. -/
def sessLater : Session :=
  ⟨3, 1, 0, "monday", 600, 660, "scheduled", "Mathematics"⟩

/-- Proposed session 09:30-10:30 for teacher 1 on date 0, used as a
concrete form submission. -/
def propSess : Session :=
  ⟨9, 1, 0, "monday", 570, 630, "scheduled", "Physics"⟩

/-- Missing-parameter request used as a concrete witness input. -/
def reqMissing : ConflictRequest :=
  ⟨"GET", some "1", some "monday", none, some "10:00", none⟩

/-- Well-formed GET request proposing 09:30-10:00 for teacher 1 on a
Monday. -/
def reqGood : ConflictRequest :=
  ⟨"GET", some "1", some "monday", some "09:30", some "10:00", none⟩

lemma formFindConflict_isSome_iff (t d st et : Nat) (ex : Option Nat)
    (store : List Session) :
    (formFindConflict t d st et ex store).isSome = true ↔
      ∃ s, s ∈ store ∧ s.teacher = t ∧ s.date = d ∧ s.status = "scheduled" ∧
        ex ≠ some s.pk ∧ st < s.end_time ∧ s.start_time < et := by
  simp only [formFindConflict, List.find?_isSome, List.mem_filter,
    Bool.and_eq_true, decide_eq_true_eq, gt_iff_lt]
  tauto

lemma ajaxFindConflict_isSome_iff (tid : Nat) (day : String) (st et : Nat)
    (ex : Option Nat) (store : List Session) :
    (ajaxFindConflict tid day st et ex store).isSome = true ↔
      ∃ s, s ∈ store ∧ s.teacher = tid ∧ s.day_of_week = day ∧
        s.status = "scheduled" ∧ ex ≠ some s.pk ∧ st < s.end_time ∧
        s.start_time < et := by
  simp only [ajaxFindConflict, List.find?_isSome, List.mem_filter,
    Bool.and_eq_true, decide_eq_true_eq, gt_iff_lt]
  tauto

lemma isConflicting_iff (self : Session) (store : List Session) :
    Session.is_conflicting self store = true ↔
      ∃ s, s ∈ store ∧ s.teacher = self.teacher ∧ s.date = self.date ∧
        s.status = "scheduled" ∧ s.pk ≠ self.pk ∧
        self.start_time < s.end_time ∧ s.start_time < self.end_time := by
  simp only [Session.is_conflicting, List.any_eq_true, List.mem_filter,
    Bool.and_eq_true, decide_eq_true_eq, gt_iff_lt]
  tauto

lemma filter_not_isEmpty_iff {α : Type} (l : List α) (p : α → Bool) :
    (!(l.filter p).isEmpty) = true ↔ ∃ x, x ∈ l ∧ p x = true := by
  rw [Bool.not_eq_true']
  cases h : (l.filter p).isEmpty <;>
    simp_all [List.isEmpty_iff, List.filter_eq_nil_iff]

lemma seedConflictExists_iff (t d st et : Nat) (store : List Session) :
    seedConflictExists t d st et store = true ↔
      ∃ s, s ∈ store ∧ s.teacher = t ∧ s.date = d ∧ s.status = "scheduled" ∧
        s.start_time < et ∧ st < s.end_time := by
  unfold seedConflictExists
  rw [filter_not_isEmpty_iff]
  constructor
  · rintro ⟨s, hs, hov⟩
    rw [List.mem_filter] at hs
    simp only [Bool.and_eq_true, decide_eq_true_eq, gt_iff_lt] at hs hov
    obtain ⟨hmem, ⟨ht, hd⟩, hst⟩ := hs
    exact ⟨s, hmem, ht, hd, hst, hov.1, hov.2⟩
  · rintro ⟨s, hmem, ht, hd, hst, h1, h2⟩
    refine ⟨s, ?_, ?_⟩
    · rw [List.mem_filter]
      simp [hmem, ht, hd, hst]
    · simp [h1, h2]

lemma filter_filter_of_imp {α : Type} (p q : α → Bool) (l : List α)
    (h : ∀ x, p x = true → q x = true) :
    (l.filter q).filter p = l.filter p := by
  induction l with
  | nil => rfl
  | cons a tl ih =>
    by_cases hq : q a = true
    · simp [List.filter_cons, hq, ih]
    · have hp : p a = false := by
        cases hpa : p a
        · rfl
        · exact absurd (h a hpa) hq
      simp [List.filter_cons, hq, hp, ih]

/-- C1: for a well-formed proposed assignment, the form validation scan
(`formFindConflict`) and the `Session.is_conflicting` predicate report a
conflict exactly when some stored session has the same teacher, the same
date, status `scheduled`, is distinct from the excluded session, and its
half-open interval overlaps the proposed one
(`proposed_start < existing_end` and `existing_start < proposed_end`). -/
theorem conflict_check_iff_overlap (t d st et : Nat) (ex : Option Nat)
    (store : List Session) (hwf : st < et) :
    ((formFindConflict t d st et ex store).isSome = true ↔
      ∃ s, s ∈ store ∧ s.teacher = t ∧ s.date = d ∧ s.status = "scheduled" ∧
        ex ≠ some s.pk ∧ st < s.end_time ∧ s.start_time < et) ∧
    ∀ self : Session, self.start_time < self.end_time →
      (Session.is_conflicting self store = true ↔
        ∃ s, s ∈ store ∧ s.teacher = self.teacher ∧ s.date = self.date ∧
          s.status = "scheduled" ∧ s.pk ≠ self.pk ∧
          self.start_time < s.end_time ∧ s.start_time < self.end_time) :=
  ⟨formFindConflict_isSome_iff t d st et ex store,
   fun self _ => isConflicting_iff self store⟩

/-- Witness for C1: the proposed 09:30-10:30 slot conflicts with the
stored 09:00-10:00 session of the same teacher on the same date. -/
theorem conflict_check_iff_overlap_witness :
    (formFindConflict 1 0 570 630 none [sessA]).isSome = true :=
  ((conflict_check_iff_overlap 1 0 570 630 none [sessA] (by decide)).1).mpr
    ⟨sessA, by decide⟩

/-- C2 fails on the code at this input: the store holds one scheduled
session of teacher 1 on date 7 (a Monday); proposing 09:00-10:00 on date 0
(also a Monday), the form check filtering by date reports no conflict while
the AJAX check filtering by day-of-week reports a conflict. -/
theorem form_ajax_disagree_counterexample :
    sessNextWeek.day_of_week = weekdayName sessNextWeek.date ∧
    (formFindConflict 1 0 540 600 none [sessNextWeek]).isSome = false ∧
    (ajaxFindConflict 1 (weekdayName 0) 540 600 none [sessNextWeek]).isSome
      = true := by
  refine ⟨rfl, ?_, ?_⟩ <;> decide

/-- C2 amended: the synchronous form check and the AJAX check return the
same answer whenever, among the teacher's stored scheduled sessions, having
the queried day-of-week coincides with having the queried date; in general
the AJAX check filters by `day_of_week` where the form filters by `date`,
so it can also report conflicts with same-weekday sessions on other
dates. -/
theorem form_ajax_agree_of_day_determines_date (t d st et : Nat)
    (ex : Option Nat) (store : List Session)
    (hday : ∀ s ∈ store, s.teacher = t → s.status = "scheduled" →
      (s.date = d ↔ s.day_of_week = weekdayName d)) :
    (formFindConflict t d st et ex store).isSome =
      (ajaxFindConflict t (weekdayName d) st et ex store).isSome := by
  unfold formFindConflict ajaxFindConflict
  have hfil : (store.filter fun s =>
      decide (s.teacher = t) && decide (s.date = d) &&
      decide (s.status = "scheduled") && decide (ex ≠ some s.pk)) =
      store.filter fun s =>
      decide (s.teacher = t) && decide (s.day_of_week = weekdayName d) &&
      decide (s.status = "scheduled") && decide (ex ≠ some s.pk) := by
    apply List.filter_congr
    intro s hs
    by_cases ht : s.teacher = t
    · by_cases hst : s.status = "scheduled"
      · by_cases hd : s.date = d
        · have hw : s.day_of_week = weekdayName d := (hday s hs ht hst).mp hd
          simp [ht, hst, hd, hw]
        · have hw : ¬ s.day_of_week = weekdayName d :=
            fun h => hd ((hday s hs ht hst).mpr h)
          simp [ht, hst, hd, hw]
      · simp [hst]
    · simp [ht]
  rw [hfil]

/-- Witness for the amended C2 on a store whose only session carries the
queried date and its weekday. -/
theorem form_ajax_agree_witness :
    (formFindConflict 1 0 540 600 none [sessA]).isSome =
      (ajaxFindConflict 1 (weekdayName 0) 540 600 none [sessA]).isSome :=
  form_ajax_agree_of_day_determines_date 1 0 540 600 none [sessA] (by decide)

/-- C5: an exactly adjacent pair, where the proposed start equals the
stored end or the proposed end equals the stored start, is never reported
as a conflict, by the form scan or by `Session.is_conflicting`. -/
theorem adjacency_no_conflict (t d st et : Nat) (ex : Option Nat)
    (s a b : Session)
    (h1 : st = s.end_time ∨ et = s.start_time)
    (h2 : a.start_time = b.end_time ∨ a.end_time = b.start_time) :
    (formFindConflict t d st et ex [s]).isSome = false ∧
    Session.is_conflicting a [b] = false := by
  constructor
  · rw [← Bool.not_eq_true]
    intro hc
    rw [formFindConflict_isSome_iff] at hc
    obtain ⟨x, hmem, _, _, _, _, hlt1, hlt2⟩ := hc
    simp only [List.mem_singleton] at hmem
    subst hmem
    rcases h1 with h | h <;> omega
  · rw [← Bool.not_eq_true]
    intro hc
    rw [isConflicting_iff] at hc
    obtain ⟨x, hmem, _, _, _, _, hlt1, hlt2⟩ := hc
    simp only [List.mem_singleton] at hmem
    subst hmem
    rcases h2 with h | h <;> omega

/-- Witness for C5: 10:00-11:00 directly after the stored 09:00-10:00
session, in both directions. -/
theorem adjacency_no_conflict_witness :
    (formFindConflict 1 0 600 660 none [sessA]).isSome = false ∧
    Session.is_conflicting sessA [sessLater] = false :=
  adjacency_no_conflict 1 0 600 660 none sessA sessA sessLater
    (by decide) (by decide)

/-- C6: checking a session's own unchanged teacher, date and interval
while excluding its own pk reports no conflict against itself (singleton
store, for both the form and the AJAX scan), and against any store the
exclusion behaves exactly as removing every row with that pk. -/
theorem edit_excludes_self (s : Session) (store : List Session) :
    (formFindConflict s.teacher s.date s.start_time s.end_time (some s.pk)
        [s]).isSome = false ∧
    (ajaxFindConflict s.teacher s.day_of_week s.start_time s.end_time
        (some s.pk) [s]).isSome = false ∧
    formFindConflict s.teacher s.date s.start_time s.end_time (some s.pk)
        store =
      formFindConflict s.teacher s.date s.start_time s.end_time (some s.pk)
        (store.filter fun x => decide (x.pk ≠ s.pk)) := by
  refine ⟨?_, ?_, ?_⟩
  · rw [← Bool.not_eq_true]
    intro hc
    rw [formFindConflict_isSome_iff] at hc
    obtain ⟨x, hmem, _, _, _, hex, _, _⟩ := hc
    simp only [List.mem_singleton] at hmem
    subst hmem
    exact hex rfl
  · rw [← Bool.not_eq_true]
    intro hc
    rw [ajaxFindConflict_isSome_iff] at hc
    obtain ⟨x, hmem, _, _, _, hex, _, _⟩ := hc
    simp only [List.mem_singleton] at hmem
    subst hmem
    exact hex rfl
  · unfold formFindConflict
    rw [filter_filter_of_imp]
    intro x hx
    simp only [Bool.and_eq_true, decide_eq_true_eq] at hx
    simp only [decide_eq_true_eq]
    intro hpk
    exact hx.2 (by rw [hpk])

/-- C8: the database-layer overlap filter of the seeding commands and the
in-application overlap scan of the form validation report a conflict on
exactly the same stores and proposed intervals. -/
theorem seed_filter_equiv_form_scan (t d st et : Nat)
    (store : List Session) :
    seedConflictExists t d st et store =
      (formFindConflict t d st et none store).isSome := by
  rw [Bool.eq_iff_iff, seedConflictExists_iff, formFindConflict_isSome_iff]
  constructor
  · rintro ⟨s, hmem, ht, hd, hst, h1, h2⟩
    exact ⟨s, hmem, ht, hd, hst, by simp, h2, h1⟩
  · rintro ⟨s, hmem, ht, hd, hst, hex, h1, h2⟩
    exact ⟨s, hmem, ht, hd, hst, h2, h1⟩

lemma formFindConflict_some_mem {t d st et : Nat} {ex : Option Nat}
    {store : List Session} {s : Session}
    (h : formFindConflict t d st et ex store = some s) :
    s ∈ store ∧ s.status = "scheduled" := by
  unfold formFindConflict at h
  have hmem := List.mem_of_find?_eq_some h
  rw [List.mem_filter] at hmem
  refine ⟨hmem.1, ?_⟩
  have hcond := hmem.2
  simp only [Bool.and_eq_true, decide_eq_true_eq] at hcond
  exact hcond.1.2

lemma ajaxFindConflict_some_mem {tid : Nat} {day : String} {st et : Nat}
    {ex : Option Nat} {store : List Session} {s : Session}
    (h : ajaxFindConflict tid day st et ex store = some s) :
    s ∈ store ∧ s.status = "scheduled" := by
  unfold ajaxFindConflict at h
  have hmem := List.mem_of_find?_eq_some h
  rw [List.mem_filter] at hmem
  refine ⟨hmem.1, ?_⟩
  have hcond := hmem.2
  simp only [Bool.and_eq_true, decide_eq_true_eq] at hcond
  exact hcond.1.2

lemma checkInner_conflict {req : ConflictRequest} {store : List Session}
    {r : ConflictResponse} (hI : checkInner req store = .ok r)
    (hr : r.has_conflict = true) :
    ∃ s, s ∈ store ∧ s.status = "scheduled" ∧
      r.message = ajaxConflictMessage s := by
  unfold checkInner at hI
  split at hI
  · rename_i st et tid ex hq1 hq2 hq3 hq4
    cases hF : ajaxFindConflict tid (req.day_of_week.getD "") st et ex store
      with
    | none =>
      rw [hF] at hI
      injection hI with h2
      rw [← h2] at hr
      exact absurd hr (by simp)
    | some s =>
      rw [hF] at hI
      injection hI with h2
      obtain ⟨hmem, hst⟩ := ajaxFindConflict_some_mem hF
      exact ⟨s, hmem, hst, by rw [← h2]⟩
  · exact absurd hI (by simp)

/-- C3: a request to the AJAX endpoint in which any of the four required
parameters is missing gets a structured response with
`has_conflict = false` rather than an error. -/
theorem missing_param_no_conflict (req : ConflictRequest)
    (store : List Session)
    (h : req.teacher_id = none ∨ req.day_of_week = none ∨
      req.start_time = none ∨ req.end_time = none) :
    (check_session_conflicts req store).has_conflict = false := by
  by_cases hm : req.method = "GET"
  · rcases h with h | h | h | h <;>
      simp [check_session_conflicts, hm, paramPresent, h]
  · simp [check_session_conflicts, hm]

/-- Witness for C3: a GET request without a `start_time` parameter. -/
theorem missing_param_no_conflict_witness :
    (check_session_conflicts reqMissing []).has_conflict = false :=
  missing_param_no_conflict reqMissing [] (by decide)

/-- C4: the endpoint is a total function into structured responses, and it
reports a conflict only for a GET request whose query matched a genuine
stored scheduled session, whose message it returns; every failure path
(missing or malformed parameters, unresolvable ids, non-GET methods)
degrades to `has_conflict = false`. -/
theorem ajax_failures_degrade (req : ConflictRequest) (store : List Session)
    (h : (check_session_conflicts req store).has_conflict = true) :
    req.method = "GET" ∧ ∃ s, s ∈ store ∧ s.status = "scheduled" ∧
      (check_session_conflicts req store).message = ajaxConflictMessage s := by
  by_cases hm : req.method = "GET"
  case neg => exact absurd h (by simp [check_session_conflicts, hm])
  by_cases hp : (!(paramPresent req.teacher_id && paramPresent req.day_of_week
      && paramPresent req.start_time && paramPresent req.end_time)) = true
  · exact absurd h (by simp [check_session_conflicts, hm, hp])
  refine ⟨hm, ?_⟩
  have hred : check_session_conflicts req store =
      match checkInner req store with
      | .ok r => r
      | .error e => ⟨false, e⟩ := by
    unfold check_session_conflicts
    rw [if_pos hm, if_neg hp]
  rw [hred] at h ⊢
  cases hI : checkInner req store with
  | error e =>
    rw [hI] at h
    simp at h
  | ok r =>
    rw [hI] at h
    exact checkInner_conflict hI h

/-- Witness for C4: a well-formed GET request that does hit a conflict. -/
theorem ajax_failures_degrade_witness :
    reqGood.method = "GET" ∧ ∃ s, s ∈ [sessA] ∧ s.status = "scheduled" ∧
      (check_session_conflicts reqGood [sessA]).message
        = ajaxConflictMessage s :=
  ajax_failures_degrade reqGood [sessA] (by decide)

/-- C7 fails on the code: the form's conflict message does not identify
the conflicting session's subject — two stores differing only in that
subject produce the very same `ValidationError` message. -/
theorem form_message_no_subject_counterexample :
    sessA.subject ≠ sessB.subject ∧
    (SessionForm.clean "Alice" 1 0 570 630 none [sessA]).isSome = true ∧
    SessionForm.clean "Alice" 1 0 570 630 none [sessA] =
      SessionForm.clean "Alice" 1 0 570 630 none [sessB] := by
  refine ⟨by decide, by decide, rfl⟩

/-- C7 amended: on a conflict the form surfaces the message built from the
teacher's name and the first conflicting session's time range and date
(but not its subject), and the proposed record is not persisted. -/
theorem form_conflict_message_and_no_persist (teacherName : String)
    (c : Session) (ex : Option Nat) (store : List Session) (m : String)
    (hwf : c.start_time < c.end_time)
    (hc : SessionForm.clean teacherName c.teacher c.date c.start_time
      c.end_time ex store = some m) :
    (∃ s, formFindConflict c.teacher c.date c.start_time c.end_time ex store
        = some s ∧ s ∈ store ∧ m = formConflictMessage teacherName s) ∧
    (SessionForm.submit teacherName c ex store).1 = store := by
  unfold SessionForm.clean at hc
  rw [if_neg (by omega)] at hc
  cases hF : formFindConflict c.teacher c.date c.start_time c.end_time ex
      store with
  | none =>
    rw [hF] at hc
    simp at hc
  | some s =>
    rw [hF] at hc
    injection hc with hm
    constructor
    · exact ⟨s, rfl, (formFindConflict_some_mem hF).1, hm.symm⟩
    · unfold SessionForm.submit SessionForm.clean
      rw [if_neg (by omega), hF]

/-- Witness for the amended C7: submitting the 09:30-10:30 proposal against
the stored 09:00-10:00 session. -/
theorem form_conflict_message_witness :
    (∃ s, formFindConflict propSess.teacher propSess.date propSess.start_time
        propSess.end_time none [sessA] = some s ∧ s ∈ [sessA] ∧
        formConflictMessage "Alice" sessA = formConflictMessage "Alice" s) ∧
    (SessionForm.submit "Alice" propSess none [sessA]).1 = [sessA] :=
  form_conflict_message_and_no_persist "Alice" propSess none [sessA]
    (formConflictMessage "Alice" sessA) (by decide) rfl

/-- C9: a seeding candidate that conflicts with a stored scheduled session
of its teacher on its date is silently skipped: nothing is inserted, no
error is raised, and the loop proceeds with the next randomly drawn
candidate. -/
theorem seed_skips_conflicting (c : Session) (cands : List Session)
    (store : List Session)
    (h : seedConflictExists c.teacher c.date c.start_time c.end_time store
      = true) :
    seedStep store c = store ∧
    seedLoop store (c :: cands) = seedLoop store cands := by
  have h1 : seedStep store c = store := by
    unfold seedStep
    rw [if_pos h]
  refine ⟨h1, ?_⟩
  unfold seedLoop
  rw [List.foldl_cons, h1]

/-- Witness for C9: seeding a duplicate of the stored 09:00-10:00 slot. -/
theorem seed_skips_conflicting_witness :
    seedStep [sessA] sessB = [sessA] ∧
    seedLoop [sessA] [sessB] = seedLoop [sessA] [] :=
  seed_skips_conflicting sessB [] [sessA] (by decide)

/-- C10: every conflict-check entry point hands the session table back
unchanged: the model predicate, the form validation and the AJAX endpoint
are pure read-then-decide computations. -/
theorem conflict_checks_pure (self : Session) (teacherName : String)
    (t d st et : Nat) (ex : Option Nat) (req : ConflictRequest)
    (store : List Session) :
    (isConflictingRun self store).2 = store ∧
    (formCleanRun teacherName t d st et ex store).2 = store ∧
    (checkConflictsRun req store).2 = store :=
  ⟨rfl, rfl, rfl⟩
